import Mathlib

/-
Verification of the dbvault backup pipeline against its specification.

The development shallowly embeds the Python source:
  * `src/core/helpers/cryptographic_helper.py`  (encrypt_file / decrypt_file)
  * `src/core/helpers/blobstorage_uploader.py`  (dispatch_cloud_upload)
  * `src/core/services/sql_backup_utility.py`, `sqllite_backup_utility.py`,
    `mongo_backup_utility.py` (the structurally identical manager variants,
    embedded once as `backupModel` over a per-variant configuration)
  * `src/core/services/ibm_db2_backup_uitlity.py` (embedded separately:
    directory-based scratch area and the rc >= 2 policy of `_db2`)
  * `src/core/services/postgres_backup_utility.py` (abstract-class stub)
  * the `tenacity` retry decorator applied to `perform_backup_pipeline`
    (3 attempts, every exception retried, RetryError after exhaustion)

Files are a map from path to byte content; external engines (mysqldump,
sqlite page copy, mongodump, db2, the cloud SDKs, Fernet) are oracles
supplied through an `Env` record, since their behaviour is outside the
repository.  Everything the managers themselves do - argument checks,
ordering of stages, temp-file bookkeeping, error translation - is
translated directly from the source.
-/

namespace DBVault

/-- Python truthiness of an optional string argument: `None` and `""` are
falsy, every other string is truthy (used for `if not file_path:` etc.). -/
def otruthy : Option String → Bool
  | none => false
  | some s => !s.isEmpty

/-- Python truthiness of an optional bytes argument (`encryption_key`). -/
def btruthy : Option (List Nat) → Bool
  | none => false
  | some b => !b.isEmpty

/-- ASCII lower-casing of one character, as Python `str.lower()` performs
on the provider tags appearing here. -/
def lowerChar (c : Char) : Char :=
  if 65 ≤ c.toNat ∧ c.toNat ≤ 90 then Char.ofNat (c.toNat + 32) else c

/-- Python `s.lower()` for the ASCII provider tags. -/
def pyLower (s : String) : String := ⟨s.data.map lowerChar⟩

/-- Error taxonomy of the source: Python exception kinds raised by the
managers and helpers.  `retryError` models `tenacity.RetryError`, which
wraps the final attempt when a retry budget is exhausted. -/
inductive PyErr where
  | valueError (msg : String)
  | backupError (msg : String)
  | fileNotFoundError (path : String)
  | uploadError (msg : String)
  | calledProcessError (rc : Nat)
  | retryError (last : PyErr)
deriving DecidableEq

/-- The local filesystem: a path is mapped to its byte content when the
file exists. -/
def FS := String → Option (List Nat)

/-- Content of a file (`open(p, "rb").read()`), `none` when missing. -/
def FS.read (fs : FS) (p : String) : Option (List Nat) := fs p

/-- Create or overwrite a file (`open(p, "wb").write(d)`). -/
def FS.write (fs : FS) (p : String) (d : List Nat) : FS :=
  fun q => if q == p then some d else fs q

/-- Delete a file (`os.remove(p)`). -/
def FS.remove (fs : FS) (p : String) : FS :=
  fun q => if q == p then none else fs q

/-- Delete a directory tree (`shutil.rmtree(dir)`): every path inside the
directory, and the directory path itself, disappears. -/
def FS.removeTree (fs : FS) (dir : String) : FS :=
  fun q => if (dir ++ "/").isPrefixOf q || q == dir then none else fs q

/-- Existence test (`os.path.exists(p)`). -/
def FS.exists (fs : FS) (p : String) : Bool := (fs p).isSome

/-- File size (`os.path.getsize(p)`), 0 when the file is missing. -/
def FS.size (fs : FS) (p : String) : Nat := ((fs p).getD []).length

/-- The empty filesystem. -/
def FS.empty : FS := fun _ => none

theorem FS.read_write_self (fs : FS) (p : String) (d : List Nat) :
    (fs.write p d).read p = some d := by
  simp [FS.read, FS.write]

theorem FS.read_write_ne (fs : FS) (p q : String) (d : List Nat) (h : q ≠ p) :
    (fs.write p d).read q = fs.read q := by
  simp [FS.read, FS.write, h]

theorem FS.read_remove_self (fs : FS) (p : String) :
    (fs.remove p).read p = none := by
  simp [FS.read, FS.remove]

theorem FS.read_remove_ne (fs : FS) (p q : String) (h : q ≠ p) :
    (fs.remove p).read q = fs.read q := by
  simp [FS.read, FS.remove, h]

/-- A string is never equal to itself extended by a nonempty suffix; used to
separate a path from its derived `.enc` / `.gz` artifact paths. -/
theorem ne_append_of_pos (p s : String) (h : 0 < s.length) : p ≠ p ++ s := by
  intro hc
  have := congrArg String.length hc
  rw [String.length_append] at this
  omega

/-! ### Python `str.replace(".enc", "")`

`decrypt_file` computes its output path as `enc_path.replace(".enc", "")`,
which removes every non-overlapping occurrence of `".enc"`, scanning left
to right - not only a final suffix.  `replaceEnc` embeds exactly that
scan, and `containsEnc` is the corresponding occurrence test. -/

/-- Left-to-right removal of every occurrence of `".enc"`, as performed by
`enc_path.replace(".enc", "")` in `decrypt_file`. -/
def replaceEnc : List Char → List Char
  | a :: b :: c :: d :: rest =>
    if a = '.' ∧ b = 'e' ∧ c = 'n' ∧ d = 'c' then replaceEnc rest
    else a :: replaceEnc (b :: c :: d :: rest)
  | l => l

/-- Occurrence test: does the character list contain `".enc"`? -/
def containsEnc : List Char → Bool
  | a :: b :: c :: d :: rest =>
    (decide (a = '.' ∧ b = 'e' ∧ c = 'n' ∧ d = 'c')) || containsEnc (b :: c :: d :: rest)
  | _ => false

/-- String-level wrapper for `replaceEnc`. -/
def pyReplaceEnc (s : String) : String := ⟨replaceEnc s.data⟩

/-- String-level wrapper for `containsEnc`. -/
def strContainsEnc (s : String) : Bool := containsEnc s.data

theorem replaceEnc_cons4 (a b c d : Char) (r : List Char) :
    replaceEnc (a :: b :: c :: d :: r) =
      if a = '.' ∧ b = 'e' ∧ c = 'n' ∧ d = 'c' then replaceEnc r
      else a :: replaceEnc (b :: c :: d :: r) := rfl

/-- Key lemma: appending `".enc"` to a list that does not contain `".enc"`
and then running the Python replace recovers the original list.  The
pattern `".enc"` cannot straddle the boundary because its characters at
positions 1..3 differ from `'.'`. -/
theorem replaceEnc_append (p : List Char) (h : containsEnc p = false) :
    replaceEnc (p ++ ['.', 'e', 'n', 'c']) = p := by
  induction p with
  | nil => rfl
  | cons a t ih =>
    match t, ih with
    | [], _ =>
      show replaceEnc (a :: '.' :: 'e' :: 'n' :: 'c' :: []) = [a]
      rw [replaceEnc_cons4, if_neg]
      · rfl
      · rintro ⟨-, h2, -⟩; exact absurd h2 (by decide)
    | [b], _ =>
      show replaceEnc (a :: b :: '.' :: 'e' :: 'n' :: 'c' :: []) = [a, b]
      rw [replaceEnc_cons4, if_neg, replaceEnc_cons4, if_neg]
      · rfl
      · rintro ⟨-, h2, -⟩; exact absurd h2 (by decide)
      · rintro ⟨-, -, h3, -⟩; exact absurd h3 (by decide)
    | [b, c], _ =>
      show replaceEnc (a :: b :: c :: '.' :: 'e' :: 'n' :: 'c' :: []) = [a, b, c]
      rw [replaceEnc_cons4, if_neg, replaceEnc_cons4, if_neg, replaceEnc_cons4, if_neg]
      · rfl
      · rintro ⟨-, h2, -⟩; exact absurd h2 (by decide)
      · rintro ⟨-, -, h3, -⟩; exact absurd h3 (by decide)
      · rintro ⟨-, -, -, h4⟩; exact absurd h4 (by decide)
    | b :: c :: d :: r, ih =>
      have hsplit : containsEnc (a :: b :: c :: d :: r) = false := h
      rw [containsEnc] at hsplit
      simp only [Bool.or_eq_false_iff, decide_eq_false_iff_not] at hsplit
      show replaceEnc (a :: b :: c :: d :: (r ++ ['.', 'e', 'n', 'c'])) =
        a :: b :: c :: d :: r
      rw [replaceEnc_cons4, if_neg hsplit.1]
      have := ih hsplit.2
      simpa using this

/-! ### Cryptographic helper (`cryptographic_helper.py`)

Fernet is an external authenticated-encryption collaborator; a
`FernetScheme` packages the behaviour of `Fernet(key)` for one key:
`keyOk` is whether the key is accepted by the constructor, `enc` is
`fernet.encrypt`, and `dec` is `fernet.decrypt` (`none` models
`InvalidToken`). -/

structure FernetScheme where
  enc : List Nat → List Nat
  dec : List Nat → Option (List Nat)
  keyOk : Bool

/-- Embedding of `encrypt_file`: read the whole file, write the ciphertext
to `path + ".enc"`, delete the plaintext, return the encrypted path.  Every
failure (bad key, missing file) is caught and re-raised as `ValueError`. -/
def encrypt_file (f : FernetScheme) (fs : FS) (p : String) :
    (Except PyErr String) × FS :=
  if !f.keyOk then
    (.error (.valueError "Some error occured when doing encryption"), fs)
  else
    match fs.read p with
    | none => (.error (.valueError "Some error occured when doing encryption"), fs)
    | some d =>
      (.ok (p ++ ".enc"), (fs.write (p ++ ".enc") (f.enc d)).remove p)

/-- Embedding of `decrypt_file`: the output path is
`enc_path.replace(".enc", "")`, the ciphertext is read and decrypted, the
plaintext written to the output path.  Wrong key / tampered data surface as
the same `ValueError` as I/O failures. -/
def decrypt_file (f : FernetScheme) (fs : FS) (encPath : String) :
    (Except PyErr String) × FS :=
  if !f.keyOk then
    (.error (.valueError "Some error occured when doing encryption"), fs)
  else
    let output := pyReplaceEnc encPath
    match fs.read encPath with
    | none => (.error (.valueError "Some error occured when doing encryption"), fs)
    | some d =>
      match f.dec d with
      | none => (.error (.valueError "Some error occured when doing encryption"), fs)
      | some plain => (.ok output, fs.write output plain)

/-! ### Pipeline options and external environment -/

/-- The keyword options accepted by `backup(...)` / the pipeline entry
points.  Absent keys model `kwargs.get(k)` returning `None`. -/
structure Kwargs where
  cloud_provider : Option String := none
  encryption_key : Option (List Nat) := none
  s3_bucket : Option String := none
  s3_key : Option String := none
  s3_expected_owner : Option String := none
  azure_conn_str : Option String := none
  azure_container : Option String := none
  azure_blob_name : Option String := none
  gcs_bucket : Option String := none
  gcs_blob_name : Option String := none
  gcs_credentials : Option String := none
  minio_endpoint : Option String := none
  minio_access_key : Option String := none
  minio_secret_key : Option String := none
  minio_bucket : Option String := none
  minio_object_name : Option String := none
  minio_secure : Option Bool := none

/-- Outcomes of the external collaborators for one pipeline run: the
database engine (connection, dump bytes, restore/integrity verdict), the
gzip compressor, the Fernet instance, the cloud SDKs, and the db2 command
line tools (exit codes and produced backup image). -/
structure Env where
  connectOk : Bool := true
  dumpData : Option (List Nat) := none
  validateOk : Bool := true
  compressOk : Bool := true
  gz : List Nat → List Nat := id
  fernet : FernetScheme := ⟨id, fun d => some d, true⟩
  uploadOk : Bool := true
  db2ConnectRc : Nat := 0
  db2BackupRc : Nat := 0
  db2Image : Option (String × List Nat) := none
  db2CkbkpRc : Nat := 0

/-- Per-variant constants of the structurally identical managers
(`SQLDatabaseBackupManager`, `SQLiteDatabaseBackupManager`,
`MongoDatabaseBackupManager`, and the key-value variant the spec calls
structurally identical): the class-level temp path, the dump file name
joined under a caller directory, whether `_upload_to_cloud` delegates to
the four-provider `dispatch_cloud_upload` (mongo) or inlines the
two-provider s3/azure routing, whether the dump step creates the output
file even when the dump tool fails (mysqldump opens the file before the
subprocess runs; the sqlite page copy connects to the destination), and
whether `connect` validates only a database file path (sqlite). -/
structure VariantCfg where
  tempPath : String
  dumpFileName : String
  usesDispatcher : Bool
  dumpCreatesFileOnFailure : Bool
  fileBased : Bool

/-- `SQLDatabaseBackupManager` constants. -/
def mysqlCfg : VariantCfg := ⟨"./backup_temp.sql", "backup.sql", false, true, false⟩

/-- `SQLiteDatabaseBackupManager` constants. -/
def sqliteCfg : VariantCfg := ⟨"./backup_temp.db", "backup.db", false, true, true⟩

/-- `MongoDatabaseBackupManager` constants. -/
def mongoCfg : VariantCfg := ⟨"./backup_temp.archive", "backup.archive", true, false, false⟩

/-! ### Cloud upload routing -/

/-- Embedding of the inline `_upload_to_cloud` of the mysql / sqlite / db2
managers: s3 and azure only, provider-specific completeness checks before
any network call, anything else rejected with a `ValueError` naming the
(lower-cased) provider.  A network failure surfaces wrapped in
`RetryError` because each upload function carries its own tenacity
decorator. -/
def uploadLegacy (env : Env) (kw : Kwargs) : Except PyErr Unit :=
  let provider := pyLower (kw.cloud_provider.getD "")
  if provider == "s3" then
    if !otruthy kw.s3_bucket then
      .error (.valueError "s3_bucket is required for S3 uploads")
    else if !otruthy kw.s3_expected_owner then
      .error (.valueError "s3_expected_owner (AWS account ID) is required for S3 uploads")
    else if env.uploadOk then .ok ()
    else .error (.retryError (.uploadError "S3 upload failed"))
  else if provider == "azure" then
    if !otruthy kw.azure_conn_str || !otruthy kw.azure_container then
      .error (.valueError "azure_conn_str and azure_container are required for Azure uploads")
    else if env.uploadOk then .ok ()
    else .error (.retryError (.uploadError "Azure upload failed"))
  else
    .error (.valueError ("Unsupported cloud_provider: " ++ provider ++ ". Use s3 or azure."))

/-- Embedding of `dispatch_cloud_upload` (`blobstorage_uploader.py`): the
four-provider routing used by the mongo manager, with the same
completeness-check-then-upload shape per provider. -/
def dispatchCloudUpload (env : Env) (kw : Kwargs) : Except PyErr Unit :=
  let provider := pyLower (kw.cloud_provider.getD "")
  if provider == "s3" then
    if !otruthy kw.s3_bucket || !otruthy kw.s3_expected_owner then
      .error (.valueError "s3_bucket and s3_expected_owner (AWS account ID) are required for S3 uploads")
    else if env.uploadOk then .ok ()
    else .error (.retryError (.uploadError "S3 upload failed"))
  else if provider == "azure" then
    if !otruthy kw.azure_conn_str || !otruthy kw.azure_container then
      .error (.valueError "azure_conn_str and azure_container are required for Azure uploads")
    else if env.uploadOk then .ok ()
    else .error (.retryError (.uploadError "Azure upload failed"))
  else if provider == "gcs" then
    if !otruthy kw.gcs_bucket then
      .error (.valueError "gcs_bucket is required for GCS uploads")
    else if env.uploadOk then .ok ()
    else .error (.retryError (.uploadError "GCS upload failed"))
  else if provider == "minio" then
    if !otruthy kw.minio_endpoint || !otruthy kw.minio_access_key ||
        !otruthy kw.minio_secret_key || !otruthy kw.minio_bucket then
      .error (.valueError "minio_endpoint, minio_access_key, minio_secret_key, minio_bucket are required")
    else if env.uploadOk then .ok ()
    else .error (.retryError (.uploadError "MinIO upload failed"))
  else
    .error (.valueError ("Unsupported cloud_provider: " ++ provider ++ ". Use s3, azure, gcs, or minio."))

/-- Dispatch of the upload stage per variant: mongo routes through
`dispatch_cloud_upload`, the other managers inline the two-provider
version. -/
def uploadStage (cfg : VariantCfg) (env : Env) (kw : Kwargs) : Except PyErr Unit :=
  if cfg.usesDispatcher then dispatchCloudUpload env kw else uploadLegacy env kw

/-! ### Pipeline stages shared by the manager variants -/

/-- Embedding of `validate(path)`: missing or zero-length file raises
`BackupError`; otherwise the engine-specific integrity check (restore to a
throwaway namespace, `PRAGMA integrity_check`, ...) is the external verdict
`env.validateOk`, whose failure also raises `BackupError`. -/
def validateModel (env : Env) (fs : FS) (p : String) : Except PyErr Bool :=
  match fs.read p with
  | none => .error (.backupError "Backup file missing or empty")
  | some d =>
    if d.isEmpty then .error (.backupError "Backup file missing or empty")
    else if env.validateOk then .ok true
    else .error (.backupError "Validation failed")

/-- Embedding of `compress(path)`: missing source raises
`FileNotFoundError`; on success the gzip artifact `path + ".gz"` is
written and the source deleted; a compressor failure leaves the partially
opened gzip file behind and raises `BackupError`. -/
def compressModel (env : Env) (fs : FS) (p : String) :
    (Except PyErr String) × FS :=
  match fs.read p with
  | none => (.error (.fileNotFoundError p), fs)
  | some d =>
    if env.compressOk then
      (.ok (p ++ ".gz"), (fs.write (p ++ ".gz") (env.gz d)).remove p)
    else
      (.error (.backupError "Compression failed"), fs.write (p ++ ".gz") [])

/-- Embedding of the managers `encrypt(path, key)`: delegate to
`encrypt_file` and wrap any failure into `BackupError`. -/
def encryptStage (env : Env) (fs : FS) (p : String) :
    (Except PyErr String) × FS :=
  match encrypt_file env.fernet fs p with
  | (.error _, fs2) => (.error (.backupError "Encryption failed"), fs2)
  | (.ok ep, fs2) => (.ok ep, fs2)

/-- Outcome of one `backup(...)` call: the returned value or raised error,
the filesystem afterwards (the `finally` block applied), and whether the
dump step was reached. -/
structure BackupResult where
  result : Except PyErr (Bool × String)
  fs : FS
  dumpAttempted : Bool

/-- The `finally` block of `backup`: remove the class-level temp dump path
when it exists. -/
def backupFinally (tempPath : String) (r : BackupResult) : BackupResult :=
  if r.fs.exists tempPath then ⟨r.result, r.fs.remove tempPath, r.dumpAttempted⟩
  else r

/-- Embedding of `backup(file_path, storage_account_link, **kwargs)` of the
mysql / sqlite / mongo managers (their bodies are identical up to the
`VariantCfg` constants).  Order of operations, taken from the source:
not-connected check, destination check, dump, validate, compress,
optional encrypt, optional upload, with the temp-path removal in a
`finally` around the staged part only. -/
def backupModel (cfg : VariantCfg) (env : Env) (connected : Bool)
    (file_path storage_account_link : Option String) (kw : Kwargs) (fs : FS) :
    BackupResult :=
  if !connected then
    ⟨.error (.backupError "Database not connected"), fs, false⟩
  else if !otruthy file_path && !otruthy storage_account_link &&
      !otruthy kw.cloud_provider then
    ⟨.error (.valueError "Either file_path or cloud_provider (with credentials) required"), fs, false⟩
  else
    let backupPath :=
      if otruthy file_path then (file_path.getD "") ++ "/" ++ cfg.dumpFileName
      else cfg.tempPath
    match env.dumpData with
    | none =>
      let fs1 := if cfg.dumpCreatesFileOnFailure then fs.write backupPath [] else fs
      backupFinally cfg.tempPath ⟨.error (.backupError "dump failed"), fs1, true⟩
    | some d =>
      let fs1 := fs.write backupPath d
      match validateModel env fs1 backupPath with
      | .error e => backupFinally cfg.tempPath ⟨.error e, fs1, true⟩
      | .ok v =>
        if !v then
          backupFinally cfg.tempPath
            ⟨.error (.backupError "Backup validation failed"), fs1, true⟩
        else
          match compressModel env fs1 backupPath with
          | (.error e, fs2) => backupFinally cfg.tempPath ⟨.error e, fs2, true⟩
          | (.ok cp, fs2) =>
            let afterEnc :=
              if btruthy kw.encryption_key then encryptStage env fs2 cp
              else (.ok cp, fs2)
            match afterEnc with
            | (.error e, fs3) => backupFinally cfg.tempPath ⟨.error e, fs3, true⟩
            | (.ok finalPath, fs3) =>
              if otruthy kw.cloud_provider then
                match uploadStage cfg env kw with
                | .error e => backupFinally cfg.tempPath ⟨.error e, fs3, true⟩
                | .ok _ =>
                  backupFinally cfg.tempPath ⟨.ok (true, finalPath), fs3, true⟩
              else
                backupFinally cfg.tempPath ⟨.ok (true, finalPath), fs3, true⟩

/-- Embedding of `connect(host, user, password, database_name)`: the
file-based variant (sqlite) requires only an existing database file, all
other variants require every field nonempty; the engine connection outcome
is external (`env.connectOk`), failures surface as `BackupError`. -/
def connectModel (cfg : VariantCfg) (env : Env)
    (host user password dbname : String) (fs : FS) : Except PyErr Unit :=
  if cfg.fileBased then
    if dbname.isEmpty then
      .error (.valueError "database_name (path to .db file) is required")
    else if !fs.exists dbname then
      .error (.backupError ("SQLite database file not found: " ++ dbname))
    else if env.connectOk then .ok ()
    else .error (.backupError "Database connection failed")
  else
    if host.isEmpty || user.isEmpty || password.isEmpty || dbname.isEmpty then
      .error (.valueError "host, user, password, database_name are required")
    else if env.connectOk then .ok ()
    else .error (.backupError "Database connection failed")

/-- One un-retried attempt of `perform_backup_pipeline`: connect, then
backup; the `finally` closes the connection handle (no filesystem
effect).  A connect failure means `backup` is never called. -/
def pipelineOnce (cfg : VariantCfg) (env : Env)
    (host user password dbname : String)
    (file_path storage_account_link : Option String) (kw : Kwargs) (fs : FS) :
    BackupResult :=
  match connectModel cfg env host user password dbname fs with
  | .error e => ⟨.error e, fs, false⟩
  | .ok _ => backupModel cfg env true file_path storage_account_link kw fs

/-! ### The tenacity retry wrapper

`perform_backup_pipeline` is decorated with
`@retry(stop=stop_after_attempt(3), wait=wait_exponential(...))`.
tenacity retries on every exception (no `retry=` argument restricts the
kinds) and, because `reraise` keeps its default `False`, raises
`RetryError` wrapping the final attempt once the attempt budget is
exhausted.  The wait times only delay execution and are not observable
here. -/

/-- Retry loop of the decorator: run one attempt on the current
filesystem; on success stop, on any exception move to the next attempt
with the filesystem the failed attempt left behind; after the last
attempt, raise `RetryError` wrapping that attempt's exception.  Returns
the result, the final filesystem, and the number of attempts executed. -/
def retryGo (att : FS → (Except PyErr (Bool × String)) × FS) :
    Nat → Nat → FS → (Except PyErr (Bool × String)) × FS × Nat
  | 0, i, fs => (.error (.retryError (.backupError "retry budget exhausted")), fs, i - 1)
  | 1, i, fs =>
    match att fs with
    | (.ok a, fs2) => (.ok a, fs2, i)
    | (.error e, fs2) => (.error (.retryError e), fs2, i)
  | n + 2, i, fs =>
    match att fs with
    | (.ok a, fs2) => (.ok a, fs2, i)
    | (.error _, fs2) => retryGo att (n + 1) (i + 1) fs2

/-- Embedding of `perform_backup_pipeline(host, user, password,
database_name, file_path, storage_account_link=None, **kwargs)` for the
mysql / sqlite / mongo managers: the connect+backup sequence wrapped in
the 3-attempt tenacity retry. -/
def perform_backup_pipeline (cfg : VariantCfg) (env : Env)
    (host user password dbname : String) (file_path : String)
    (storage_account_link : Option String) (kw : Kwargs) (fs : FS) :
    (Except PyErr (Bool × String)) × FS × Nat :=
  retryGo
    (fun s =>
      let r := pipelineOnce cfg env host user password dbname
        (some file_path) storage_account_link kw s
      (r.result, r.fs))
    3 1 fs

/-- Embedding of `async_perform_backup_pipeline`: the body is
`await asyncio.to_thread(self.perform_backup_pipeline, ...same args...)`,
and `asyncio.to_thread` runs the given callable with the given arguments
on a worker thread, returning its value or re-raising its exception
unchanged; the observable outcome is that of the synchronous call. -/
def async_perform_backup_pipeline (cfg : VariantCfg) (env : Env)
    (host user password dbname : String) (file_path : String)
    (storage_account_link : Option String) (kw : Kwargs) (fs : FS) :
    (Except PyErr (Bool × String)) × FS × Nat :=
  perform_backup_pipeline cfg env host user password dbname file_path
    storage_account_link kw fs

/-! ### IBM Db2 variant (`ibm_db2_backup_uitlity.py`)

The db2 manager differs from the other variants: its scratch area is a
directory, its dump tool is the db2 command line processor whose exit
code 1 means warning, and validation shells out to `db2ckbkp`. -/

/-- Result of a `subprocess.run` invocation. -/
structure SubprocResult where
  returncode : Nat
  stdout : String
  stderr : String

/-- Embedding of `IBMDB2DatabaseBackupManager._db2`: run one db2 CLP
statement; exit codes 0 and 1 (warnings) succeed and return stdout, exit
codes of 2 or more raise `BackupError` carrying stderr, or stdout when
stderr is empty. -/
def db2Cmd (r : SubprocResult) : Except PyErr String :=
  if 2 ≤ r.returncode then
    .error (.backupError (if r.stderr.isEmpty then r.stdout else r.stderr))
  else .ok r.stdout

/-- Embedding of `subprocess.run(..., check=True)`, the invocation used by
the mysql and mongo managers for their dump and validate subprocesses:
`CalledProcessError` on any nonzero exit code. -/
def subprocCheckedRun (rc : Nat) : Except PyErr Unit :=
  if rc != 0 then .error (.calledProcessError rc) else .ok ()

/-- Embedding of `IBMDB2DatabaseBackupManager.validate`: missing or empty
file raises `BackupError`; then `db2ckbkp` is run without `check=True` and
ANY nonzero exit code - including 1 - raises `BackupError`. -/
def db2Validate (fs : FS) (p : String) (ckbkpRc : Nat) : Except PyErr Bool :=
  match fs.read p with
  | none => .error (.backupError "Backup file missing or empty")
  | some d =>
    if d.isEmpty then .error (.backupError "Backup file missing or empty")
    else if ckbkpRc != 0 then .error (.backupError "Validation failed")
    else .ok true

/-- Embedding of `IBMDB2DatabaseBackupManager.connect`: all four fields
required, then a `CONNECT TO` statement through `_db2`; its failure is
re-raised as `BackupError`. -/
def db2Connect (env : Env) (host user password dbname : String) :
    Except PyErr Unit :=
  if host.isEmpty || user.isEmpty || password.isEmpty || dbname.isEmpty then
    .error (.valueError "host, user, password, database_name are required")
  else if 2 ≤ env.db2ConnectRc then
    .error (.backupError "Database connection failed")
  else .ok ()

/-- The db2 `finally` block: `shutil.rmtree("./backup_temp_db2")` when the
temp directory exists. -/
def db2Finally (r : BackupResult) : BackupResult :=
  ⟨r.result, r.fs.removeTree "./backup_temp_db2", r.dumpAttempted⟩

/-- Embedding of `IBMDB2DatabaseBackupManager.backup`: same not-connected
and destination checks as the other variants, then `BACKUP DATABASE`
through `_db2` into a backup directory (the tool writes the image file,
supplied by `env.db2Image`; exit code 1 is tolerated), `db2ckbkp`
validation, compression, optional encryption, optional s3/azure upload,
with the temp directory removed in a `finally`. -/
def db2Backup (env : Env) (connected : Bool)
    (file_path storage_account_link : Option String) (kw : Kwargs) (fs : FS) :
    BackupResult :=
  if !connected then
    ⟨.error (.backupError "Database not connected"), fs, false⟩
  else if !otruthy file_path && !otruthy storage_account_link &&
      !otruthy kw.cloud_provider then
    ⟨.error (.valueError "Either file_path or cloud_provider (with credentials) required"), fs, false⟩
  else
    let backupDir :=
      if otruthy file_path then (file_path.getD "") ++ "/" ++ "db2_backup"
      else "./backup_temp_db2"
    if 2 ≤ env.db2BackupRc then
      db2Finally ⟨.error (.backupError "db2 BACKUP failed"), fs, true⟩
    else
      match env.db2Image with
      | none =>
        db2Finally ⟨.error (.backupError "No backup image found after db2 BACKUP"), fs, true⟩
      | some (name, data) =>
        let imagePath := backupDir ++ "/" ++ name
        let fs1 := fs.write imagePath data
        match db2Validate fs1 imagePath env.db2CkbkpRc with
        | .error e => db2Finally ⟨.error e, fs1, true⟩
        | .ok v =>
          if !v then
            db2Finally ⟨.error (.backupError "Backup validation failed"), fs1, true⟩
          else
            match compressModel env fs1 imagePath with
            | (.error e, fs2) => db2Finally ⟨.error e, fs2, true⟩
            | (.ok cp, fs2) =>
              let afterEnc :=
                if btruthy kw.encryption_key then encryptStage env fs2 cp
                else (.ok cp, fs2)
              match afterEnc with
              | (.error e, fs3) => db2Finally ⟨.error e, fs3, true⟩
              | (.ok finalPath, fs3) =>
                if otruthy kw.cloud_provider then
                  match uploadLegacy env kw with
                  | .error e => db2Finally ⟨.error e, fs3, true⟩
                  | .ok _ => db2Finally ⟨.ok (true, finalPath), fs3, true⟩
                else
                  db2Finally ⟨.ok (true, finalPath), fs3, true⟩

/-- One un-retried db2 pipeline attempt: connect, then backup, with a
`CONNECT RESET` in the `finally` (no filesystem effect). -/
def db2PipelineOnce (env : Env) (host user password dbname : String)
    (file_path storage_account_link : Option String) (kw : Kwargs) (fs : FS) :
    BackupResult :=
  match db2Connect env host user password dbname with
  | .error e => ⟨.error e, fs, false⟩
  | .ok _ => db2Backup env true file_path storage_account_link kw fs

/-- Embedding of the db2 `perform_backup_pipeline`, wrapped in the same
3-attempt tenacity retry. -/
def db2_perform_backup_pipeline (env : Env)
    (host user password dbname : String) (file_path : String)
    (storage_account_link : Option String) (kw : Kwargs) (fs : FS) :
    (Except PyErr (Bool × String)) × FS × Nat :=
  retryGo
    (fun s =>
      let r := db2PipelineOnce env host user password dbname
        (some file_path) storage_account_link kw s
      (r.result, r.fs))
    3 1 fs

/-- Embedding of the db2 `async_perform_backup_pipeline`, which awaits
`asyncio.to_thread(self.perform_backup_pipeline, ...same args...)`. -/
def db2_async_perform_backup_pipeline (env : Env)
    (host user password dbname : String) (file_path : String)
    (storage_account_link : Option String) (kw : Kwargs) (fs : FS) :
    (Except PyErr (Bool × String)) × FS × Nat :=
  db2_perform_backup_pipeline env host user password dbname file_path
    storage_account_link kw fs

/-! ### The disabled Postgres stub (`postgres_backup_utility.py`)

`DatabaseBackupManager` is an `abc.ABC` whose seven lifecycle methods are
all `@abstractmethod`.  Python refuses to instantiate a subclass that
leaves any abstract method unoverridden, raising `TypeError` at
construction time. -/

/-- The abstract lifecycle methods declared by `DatabaseBackupManager`
(`backup_utility_interface.py`). -/
def dbmAbstractMethods : List String :=
  ["connect", "backup", "validate", "compress", "encrypt",
   "perform_backup_pipeline", "async_perform_backup_pipeline"]

/-- Methods defined in the body of `PostgresDatabaseBackupManager`: only
`__init__` (and the nested `BackupError` class); no lifecycle method is
overridden. -/
def postgresDefinedMethods : List String := []

/-- Methods defined in the body of `SQLDatabaseBackupManager`. -/
def sqlDefinedMethods : List String :=
  ["connect", "backup", "validate", "compress", "encrypt",
   "perform_backup_pipeline", "async_perform_backup_pipeline"]

/-- Methods defined in the body of `SQLiteDatabaseBackupManager`. -/
def sqliteDefinedMethods : List String :=
  ["connect", "backup", "validate", "compress", "encrypt",
   "perform_backup_pipeline", "async_perform_backup_pipeline"]

/-- Methods defined in the body of `MongoDatabaseBackupManager`. -/
def mongoDefinedMethods : List String :=
  ["connect", "backup", "validate", "compress", "encrypt",
   "perform_backup_pipeline", "async_perform_backup_pipeline"]

/-- Methods defined in the body of `IBMDB2DatabaseBackupManager`. -/
def db2DefinedMethods : List String :=
  ["connect", "backup", "validate", "compress", "encrypt",
   "perform_backup_pipeline", "async_perform_backup_pipeline"]

/-- Python ABC instantiation rule: a subclass of `DatabaseBackupManager`
can be constructed exactly when every abstract method is overridden;
otherwise the constructor raises `TypeError`. -/
def pyCanInstantiate (definedMethods : List String) : Bool :=
  dbmAbstractMethods.all (fun m => definedMethods.contains m)

/-! ### Shared helper lemmas and concrete test environments -/

/-- Identity Fernet scheme: a trivially correct authenticated-encryption
oracle used to instantiate concrete runs. -/
def fernetId : FernetScheme := ⟨id, fun d => some d, true⟩

/-- Environment in which the dump succeeds with the one-byte content `[1]`
and every other collaborator succeeds. -/
def envDump1 : Env := { dumpData := some [1] }

/-- Environment in which the dump produces `[7]` but the engine-side
validation fails. -/
def envValFail : Env := { dumpData := some [7], validateOk := false }

/-- Environment in which the database connection is refused. -/
def envConnFail : Env := { connectOk := false }

/-- Helper: with all three of `file_path`, `storage_account_link` and
`cloud_provider` falsy, a connected manager's `backup` raises the
destination `ValueError` before touching the filesystem. -/
theorem backupModel_no_destination (cfg : VariantCfg) (env : Env)
    (fp sal : Option String) (kw : Kwargs) (fs : FS)
    (h1 : otruthy fp = false) (h2 : otruthy sal = false)
    (h3 : otruthy kw.cloud_provider = false) :
    backupModel cfg env true fp sal kw fs =
      ⟨.error (.valueError "Either file_path or cloud_provider (with credentials) required"), fs, false⟩ := by
  simp [backupModel, h1, h2, h3]

/-- Helper: the same destination check in the db2 variant. -/
theorem db2Backup_no_destination (env : Env) (fp sal : Option String)
    (kw : Kwargs) (fs : FS)
    (h1 : otruthy fp = false) (h2 : otruthy sal = false)
    (h3 : otruthy kw.cloud_provider = false) :
    db2Backup env true fp sal kw fs =
      ⟨.error (.valueError "Either file_path or cloud_provider (with credentials) required"), fs, false⟩ := by
  simp [db2Backup, h1, h2, h3]

/-- Helper: the retry loop performs at most `i + n - 1` attempts when
started with budget `n` at attempt counter `i`. -/
theorem retryGo_attempts_le (att : FS → (Except PyErr (Bool × String)) × FS) :
    ∀ (n i : Nat) (fs : FS), (retryGo att n i fs).2.2 ≤ i + n - 1 := by
  intro n
  induction n using Nat.strong_induction_on with
  | _ n ih =>
    match n with
    | 0 => intro i fs; simp [retryGo]
    | 1 =>
      intro i fs
      rcases h : att fs with ⟨r, fs2⟩
      cases r <;> simp [retryGo, h]
    | m + 2 =>
      intro i fs
      rcases h : att fs with ⟨r, fs2⟩
      cases r with
      | ok a => simp [retryGo, h]
      | error e =>
        have := ih (m + 1) (by omega) (i + 1) fs2
        simp [retryGo, h]
        omega

/-- Helper: when the attempt function deterministically fails and leaves
the filesystem unchanged, the 3-attempt retry runs all three attempts and
raises `RetryError` wrapping the attempt's error. -/
theorem retryGo_const_error (att : FS → (Except PyErr (Bool × String)) × FS)
    (e : PyErr) (fs : FS) (h : att fs = (.error e, fs)) :
    retryGo att 3 1 fs = (.error (.retryError e), fs, 3) := by
  show retryGo att (1 + 2) 1 fs = _
  rw [retryGo, h]
  show retryGo att (0 + 2) 2 fs = _
  rw [retryGo, h]
  show retryGo att 1 3 fs = _
  rw [retryGo, h]

/-- Helper: the Python replace recovers the original string when a clean
`".enc"` suffix is appended to a string not containing `".enc"`. -/
theorem pyReplaceEnc_append_enc (p : String) (h : strContainsEnc p = false) :
    pyReplaceEnc (p ++ ".enc") = p := by
  cases p with
  | mk l =>
    show String.mk (replaceEnc ((⟨l⟩ : String) ++ ".enc").data) = ⟨l⟩
    have hdata : ((⟨l⟩ : String) ++ ".enc").data = l ++ ['.', 'e', 'n', 'c'] := rfl
    rw [hdata, replaceEnc_append l h]

/-! ### Claim C10 -/

/-- C10: in every manager variant, `backup()` checks the connected state
before validating its arguments: on a never-connected manager it raises
the not-connected `BackupError` for every combination of arguments -
including when the destination arguments are also missing - so the
not-connected error takes precedence over `InvalidArgument`. -/
theorem c10_not_connected_precedence :
    (∀ (cfg : VariantCfg) (env : Env) (fp sal : Option String) (kw : Kwargs) (fs : FS),
      backupModel cfg env false fp sal kw fs =
        ⟨.error (.backupError "Database not connected"), fs, false⟩) ∧
    (∀ (env : Env) (fp sal : Option String) (kw : Kwargs) (fs : FS),
      db2Backup env false fp sal kw fs =
        ⟨.error (.backupError "Database not connected"), fs, false⟩) :=
  ⟨fun _ _ _ _ _ _ => rfl, fun _ _ _ _ _ => rfl⟩

/-! ### Claim C9 -/

/-- C9: for every manager variant and every input, the asynchronous entry
point `async_perform_backup_pipeline` produces exactly the same outcome
(result or error, final filesystem, attempt count) as the synchronous
`perform_backup_pipeline`: it only awaits `asyncio.to_thread` on the
synchronous function with identical arguments. -/
theorem c9_async_equals_sync :
    (∀ (cfg : VariantCfg) (env : Env) (host user password dbname fp : String)
        (sal : Option String) (kw : Kwargs) (fs : FS),
      async_perform_backup_pipeline cfg env host user password dbname fp sal kw fs =
        perform_backup_pipeline cfg env host user password dbname fp sal kw fs) ∧
    (∀ (env : Env) (host user password dbname fp : String)
        (sal : Option String) (kw : Kwargs) (fs : FS),
      db2_async_perform_backup_pipeline env host user password dbname fp sal kw fs =
        db2_perform_backup_pipeline env host user password dbname fp sal kw fs) :=
  ⟨fun _ _ _ _ _ _ _ _ _ _ => rfl, fun _ _ _ _ _ _ _ _ _ => rfl⟩

/-! ### Claim C7 -/

/-- Success test for an embedded subprocess outcome. -/
def exceptIsOk {α : Type} : Except PyErr α → Bool
  | .ok _ => true
  | .error _ => false

/-- C7: the db2 command helper `_db2` treats dump-tool exit code 1 as a
non-fatal warning - it succeeds exactly on exit codes 0 and 1 and raises
only for codes 2 and above - while `subprocess.run(check=True)` (the
invocation used by every other variant) and the db2 `db2ckbkp` validation
check both treat every nonzero exit code as fatal. -/
theorem c7_exit_code_policy :
    (∀ o e, db2Cmd ⟨1, o, e⟩ = .ok o) ∧
    (∀ rc o e, exceptIsOk (db2Cmd ⟨rc, o, e⟩) = decide (rc < 2)) ∧
    (∀ rc, exceptIsOk (subprocCheckedRun rc) = decide (rc = 0)) ∧
    (subprocCheckedRun 1 = .error (.calledProcessError 1)) ∧
    (∀ rc, exceptIsOk (db2Validate (FS.write FS.empty "img" [1]) "img" rc) = decide (rc = 0)) := by
  refine ⟨fun o e => rfl, fun rc o e => ?_, fun rc => ?_, rfl, fun rc => ?_⟩
  · by_cases h : 2 ≤ rc
    · simp [db2Cmd, exceptIsOk, h, Nat.not_lt.mpr h]
    · simp [db2Cmd, exceptIsOk, h, Nat.lt_of_not_ge h]
  · by_cases h : rc = 0
    · simp [subprocCheckedRun, exceptIsOk, h]
    · simp [subprocCheckedRun, exceptIsOk, h]
  · by_cases h : rc = 0
    · simp [db2Validate, exceptIsOk, FS.read, FS.write, h]
    · simp [db2Validate, exceptIsOk, FS.read, FS.write, h]

/-! ### Claim C8 -/

/-- C8 counterexample: the claim that the Postgres stub "can be
constructed like every other variant" is false.  The stub overrides no
abstract method, so Python refuses to instantiate it (TypeError at
construction), while the mysql variant - which overrides all seven - is
instantiable. -/
theorem c8_counterexample :
    pyCanInstantiate postgresDefinedMethods = false ∧
    pyCanInstantiate sqlDefinedMethods = true := by decide

/-- C8 amended: the Postgres stub exposes the same class-level
construction contract but, unlike every other variant, cannot actually be
instantiated: all seven lifecycle methods remain abstract, so the
constructor itself raises TypeError and no lifecycle method is ever
callable (none of them raises `NotImplemented`; they are simply absent). -/
theorem c8_amended :
    pyCanInstantiate postgresDefinedMethods = false ∧
    pyCanInstantiate sqlDefinedMethods = true ∧
    pyCanInstantiate sqliteDefinedMethods = true ∧
    pyCanInstantiate mongoDefinedMethods = true ∧
    pyCanInstantiate db2DefinedMethods = true ∧
    dbmAbstractMethods.all (fun m => !postgresDefinedMethods.contains m) = true := by
  decide

/-! ### Claim C1 -/

/-- C1 counterexample: the claim says `backup()` on a connected manager
with neither `file_path` nor `cloud_provider` always fails with
`InvalidArgument` before any dump.  But a truthy `storage_account_link`
alone satisfies the source's destination check: the run proceeds to the
dump and completes, returning the compressed temp artifact. -/
theorem c1_counterexample :
    (backupModel mysqlCfg envDump1 true none (some "x") {} FS.empty).result =
      .ok (true, "./backup_temp.sql.gz") ∧
    (backupModel mysqlCfg envDump1 true none (some "x") {} FS.empty).dumpAttempted = true := by
  exact ⟨rfl, rfl⟩

/-- C1 amended: a connected manager's `backup()` fails with the
destination `ValueError` exactly when all three of `file_path`,
`storage_account_link` and `cloud_provider` are unset or empty; then the
request is rejected before any dump, with the filesystem untouched.  This
holds for every structurally identical variant configuration and for the
db2 variant. -/
theorem c1_amended (cfg : VariantCfg) (env : Env) (fp sal : Option String)
    (kw : Kwargs) (fs : FS)
    (h1 : otruthy fp = false) (h2 : otruthy sal = false)
    (h3 : otruthy kw.cloud_provider = false) :
    backupModel cfg env true fp sal kw fs =
      ⟨.error (.valueError "Either file_path or cloud_provider (with credentials) required"), fs, false⟩ ∧
    db2Backup env true fp sal kw fs =
      ⟨.error (.valueError "Either file_path or cloud_provider (with credentials) required"), fs, false⟩ :=
  ⟨backupModel_no_destination cfg env fp sal kw fs h1 h2 h3,
   db2Backup_no_destination env fp sal kw fs h1 h2 h3⟩

/-- C1 witness: the amended destination check fires on the mysql variant
with all three destination arguments absent. -/
theorem c1_witness :
    otruthy (none : Option String) = false ∧
    backupModel mysqlCfg envDump1 true none none {} FS.empty =
      ⟨.error (.valueError "Either file_path or cloud_provider (with credentials) required"), FS.empty, false⟩ :=
  ⟨rfl, (c1_amended mysqlCfg envDump1 none none {} FS.empty rfl rfl rfl).1⟩

/-! ### Claim C4 -/

/-- C4 counterexample: the claim says an `InvalidArgument` (`ValueError`)
raised by `backup()` surfaces at the first attempt and is excluded from
the pipeline-level retry.  In the source the tenacity decorator carries no
`retry=` restriction, so a deterministic destination `ValueError` is
retried: the connect+backup sequence runs all 3 attempts and the caller
receives a `RetryError` wrapping the `ValueError`, not the bare error on
attempt one. -/
theorem c4_counterexample :
    (perform_backup_pipeline mysqlCfg {} "h" "u" "p" "db" "" none {} FS.empty).2.2 = 3 ∧
    (perform_backup_pipeline mysqlCfg {} "h" "u" "p" "db" "" none {} FS.empty).1 =
      .error (.retryError (.valueError "Either file_path or cloud_provider (with credentials) required")) := by
  exact ⟨rfl, rfl⟩

/-- C4 amended: `ValueError` (`InvalidArgument`) is retried exactly like
every other error kind: with a successful connection and no destination
argument, `perform_backup_pipeline` re-runs the connect+backup sequence
for the full 3-attempt budget and then raises `RetryError` wrapping the
destination `ValueError`. -/
theorem c4_amended (cfg : VariantCfg) (env : Env)
    (host user password dbname : String) (sal : Option String)
    (kw : Kwargs) (fs : FS)
    (hc : connectModel cfg env host user password dbname fs = .ok ())
    (h2 : otruthy sal = false) (h3 : otruthy kw.cloud_provider = false) :
    perform_backup_pipeline cfg env host user password dbname "" sal kw fs =
      (.error (.retryError (.valueError "Either file_path or cloud_provider (with credentials) required")),
       fs, 3) := by
  apply retryGo_const_error
  simp [pipelineOnce, hc,
    backupModel_no_destination cfg env (some "") sal kw fs rfl h2 h3]

/-- C4 witness: the amended retry behaviour on the mysql variant with a
trivially accepting engine. -/
theorem c4_witness :
    connectModel mysqlCfg {} "h" "u" "p" "db" FS.empty = .ok () ∧
    perform_backup_pipeline mysqlCfg {} "h" "u" "p" "db" "" none {} FS.empty =
      (.error (.retryError (.valueError "Either file_path or cloud_provider (with credentials) required")),
       FS.empty, 3) :=
  ⟨rfl, c4_amended mysqlCfg {} "h" "u" "p" "db" none {} FS.empty rfl rfl rfl⟩

/-! ### Claim C5 -/

/-- C5 counterexample: the claim says that after exhaustion "the error of
the last attempt propagates to the caller unchanged".  With a
deterministically refused connection, the last attempt raises the
connection `BackupError`, but the caller receives `RetryError` wrapping it
(tenacity keeps `reraise=False`), which differs from the bare error. -/
theorem c5_counterexample :
    (perform_backup_pipeline mysqlCfg envConnFail "h" "u" "p" "db" "/out" none {} FS.empty).1 =
      .error (.retryError (.backupError "Database connection failed")) ∧
    (pipelineOnce mysqlCfg envConnFail "h" "u" "p" "db" (some "/out") none {} FS.empty).result =
      .error (.backupError "Database connection failed") ∧
    (.error (.retryError (.backupError "Database connection failed")) :
        Except PyErr (Bool × String)) ≠
      .error (.backupError "Database connection failed") := by
  refine ⟨rfl, rfl, by simp⟩

/-- C5 amended: `perform_backup_pipeline` executes the connect+backup
sequence at most 3 times (each attempt restarts from `connect`, since the
retried unit is the whole decorated method), and when a deterministic
failure exhausts the budget the caller receives `RetryError` wrapping the
last attempt's error - not that error unchanged. -/
theorem c5_amended :
    (∀ (cfg : VariantCfg) (env : Env) (host user password dbname fp : String)
        (sal : Option String) (kw : Kwargs) (fs : FS),
      (perform_backup_pipeline cfg env host user password dbname fp sal kw fs).2.2 ≤ 3) ∧
    (∀ (cfg : VariantCfg) (env : Env) (host user password dbname fp : String)
        (sal : Option String) (kw : Kwargs) (fs : FS) (e : PyErr) (b : Bool),
      pipelineOnce cfg env host user password dbname (some fp) sal kw fs =
        ⟨.error e, fs, b⟩ →
      perform_backup_pipeline cfg env host user password dbname fp sal kw fs =
        (.error (.retryError e), fs, 3)) := by
  constructor
  · intro cfg env host user password dbname fp sal kw fs
    exact retryGo_attempts_le _ 3 1 fs
  · intro cfg env host user password dbname fp sal kw fs e b h
    apply retryGo_const_error
    simp [h]

/-- C5 witness: the amended exhaustion behaviour on the mysql variant with
a refused connection. -/
theorem c5_witness :
    pipelineOnce mysqlCfg envConnFail "h" "u" "p" "db" (some "/out") none {} FS.empty =
      ⟨.error (.backupError "Database connection failed"), FS.empty, false⟩ ∧
    perform_backup_pipeline mysqlCfg envConnFail "h" "u" "p" "db" "/out" none {} FS.empty =
      (.error (.retryError (.backupError "Database connection failed")), FS.empty, 3) :=
  ⟨rfl, c5_amended.2 mysqlCfg envConnFail "h" "u" "p" "db" "/out" none {} FS.empty
    (.backupError "Database connection failed") false rfl⟩

/-! ### Claim C6 -/

/-- C6 counterexample: the claim says an unsupported cloud provider tag is
rejected with `InvalidArgument` before any dump, leaving no scratch
files.  In the source the provider tag is only examined inside the upload
stage, which runs after dump, validate and compress: the dump is
attempted, the compressed artifact exists in the output directory when
the `ValueError` (which does name the value) is raised. -/
theorem c6_counterexample :
    (backupModel mysqlCfg envDump1 true (some "/out") none
        { cloud_provider := some "dropbox" } FS.empty).result =
      .error (.valueError "Unsupported cloud_provider: dropbox. Use s3 or azure.") ∧
    (backupModel mysqlCfg envDump1 true (some "/out") none
        { cloud_provider := some "dropbox" } FS.empty).dumpAttempted = true ∧
    (backupModel mysqlCfg envDump1 true (some "/out") none
        { cloud_provider := some "dropbox" } FS.empty).fs.read "/out/backup.sql.gz" =
      some [1] := by
  exact ⟨rfl, rfl, rfl⟩

/-- C6 amended: a cloud provider tag outside the supported set does fail
with `InvalidArgument` naming the (lower-cased) value, but only at the
upload stage, after the dump has been attempted and the compressed scratch
artifact written; the four-provider dispatcher used by the mongo variant
rejects unknown tags with the same naming behaviour. -/
theorem c6_amended (p : String) (hp : p.isEmpty = false)
    (h1 : (pyLower p == "s3") = false) (h2 : (pyLower p == "azure") = false)
    (h3 : (pyLower p == "gcs") = false) (h4 : (pyLower p == "minio") = false) :
    (backupModel mysqlCfg envDump1 true (some "/out") none
        { cloud_provider := some p } FS.empty).result =
      .error (.valueError ("Unsupported cloud_provider: " ++ pyLower p ++ ". Use s3 or azure.")) ∧
    (backupModel mysqlCfg envDump1 true (some "/out") none
        { cloud_provider := some p } FS.empty).dumpAttempted = true ∧
    (backupModel mysqlCfg envDump1 true (some "/out") none
        { cloud_provider := some p } FS.empty).fs.read "/out/backup.sql.gz" =
      some [1] ∧
    dispatchCloudUpload envDump1 { cloud_provider := some p } =
      .error (.valueError ("Unsupported cloud_provider: " ++ pyLower p ++ ". Use s3, azure, gcs, or minio.")) := by
  refine ⟨?_, ?_, ?_, ?_⟩ <;>
    simp +decide [backupModel, validateModel, compressModel, backupFinally,
      uploadStage, uploadLegacy, dispatchCloudUpload, encryptStage,
      FS.read, FS.write, FS.remove, FS.exists, otruthy, btruthy,
      envDump1, mysqlCfg, hp, h1, h2, h3, h4]

/-- C6 witness: the amended behaviour at the concrete unsupported tag
`"dropbox"`. -/
theorem c6_witness :
    "dropbox".isEmpty = false ∧
    (backupModel mysqlCfg envDump1 true (some "/out") none
        { cloud_provider := some "dropbox" } FS.empty).fs.read "/out/backup.sql.gz" =
      some [1] ∧
    dispatchCloudUpload envDump1 { cloud_provider := some "dropbox" } =
      .error (.valueError ("Unsupported cloud_provider: " ++ pyLower "dropbox" ++ ". Use s3, azure, gcs, or minio.")) :=
  ⟨rfl, (c6_amended "dropbox" rfl rfl rfl rfl rfl).2.2.1,
   (c6_amended "dropbox" rfl rfl rfl rfl rfl).2.2.2⟩

/-! ### Claim C3 -/

/-- C3 counterexample: the claim says that after any pipeline run, success
or failure, no stage-intermediate file other than the returned artifact
remains.  With a caller-supplied output directory and a failing
validation, the run raises `BackupError` yet the raw dump
`/out/backup.sql` survives: the `finally` block only ever removes the
fixed temp path `./backup_temp.sql`. -/
theorem c3_counterexample :
    (backupModel mysqlCfg envValFail true (some "/out") none {} FS.empty).result =
      .error (.backupError "Validation failed") ∧
    (backupModel mysqlCfg envValFail true (some "/out") none {} FS.empty).fs.read
      "/out/backup.sql" = some [7] := by
  exact ⟨rfl, rfl⟩

/-- C3 amended: on a successful run each stage does delete its
predecessor's file - afterwards the raw dump is gone, only the returned
compressed artifact exists, and the fixed temp dump path is clear - and
the `finally` block removes the fixed temp dump path even on failure; but
on a failed run the cleanup guarantee does not extend to intermediates
outside the fixed temp path: when validation fails, the raw dump persists
in the caller-specified output directory. -/
theorem c3_amended :
    (∀ (env : Env) (d : List Nat) (kw : Kwargs),
      env.dumpData = some d → d.isEmpty = false → env.validateOk = true →
      env.compressOk = true → kw.encryption_key = none →
      kw.cloud_provider = none →
      ((backupModel mysqlCfg env true (some "/out") none kw FS.empty).result =
          .ok (true, "/out/backup.sql.gz") ∧
        (backupModel mysqlCfg env true (some "/out") none kw FS.empty).fs.read
          "/out/backup.sql" = none ∧
        (backupModel mysqlCfg env true (some "/out") none kw FS.empty).fs.read
          "/out/backup.sql.gz" = some (env.gz d) ∧
        (backupModel mysqlCfg env true (some "/out") none kw FS.empty).fs.read
          "./backup_temp.sql" = none)) ∧
    (∀ (env : Env) (d : List Nat) (kw : Kwargs),
      env.dumpData = some d → d.isEmpty = false → env.validateOk = false →
      (backupModel mysqlCfg env true (some "/out") none kw FS.empty).fs.read
        "/out/backup.sql" = some d) ∧
    (backupModel mysqlCfg envValFail true none (some "link") {} FS.empty).fs.read
      "./backup_temp.sql" = none := by
  refine ⟨?_, ?_, rfl⟩
  · intro env d kw hd hne hv hcp hk hc
    refine ⟨?_, ?_, ?_, ?_⟩ <;>
      simp +decide [backupModel, validateModel, compressModel, encryptStage,
        backupFinally, uploadStage, FS.read, FS.write, FS.remove, FS.exists,
        FS.empty, otruthy, btruthy, mysqlCfg, hd, hne, hv, hcp, hk, hc]
  · intro env d kw hd hne hv
    simp +decide [backupModel, validateModel, backupFinally,
      FS.read, FS.write, FS.remove, FS.exists, FS.empty,
      otruthy, mysqlCfg, hd, hne, hv]

/-- C3 witness: the amended success-path cleanup and failure-path leak at
concrete environments. -/
theorem c3_witness :
    envDump1.dumpData = some [1] ∧ envValFail.validateOk = false ∧
    (backupModel mysqlCfg envDump1 true (some "/out") none {} FS.empty).result =
      .ok (true, "/out/backup.sql.gz") ∧
    (backupModel mysqlCfg envDump1 true (some "/out") none {} FS.empty).fs.read
      "/out/backup.sql" = none ∧
    (backupModel mysqlCfg envValFail true (some "/out") none {} FS.empty).fs.read
      "/out/backup.sql" = some [7] :=
  ⟨rfl, rfl,
   (c3_amended.1 envDump1 [1] {} rfl rfl rfl rfl rfl rfl).1,
   (c3_amended.1 envDump1 [1] {} rfl rfl rfl rfl rfl rfl).2.1,
   c3_amended.2.1 envValFail [7] {} rfl rfl rfl⟩

/-! ### Claim C2 -/

/-- C2 counterexample: the claim says the decrypted output is written to
exactly the original path, the `.enc` suffix stripped.  But `decrypt_file`
uses `enc_path.replace(".enc", "")`, which removes every occurrence of
`".enc"`: for the original path `a.enc.db` the encrypted file is
`a.enc.db.enc` and decryption writes to `a.db`, not to `a.enc.db` - the
original path holds no content after the round trip. -/
theorem c2_counterexample :
    (encrypt_file fernetId (FS.write FS.empty "a.enc.db" [7]) "a.enc.db").1 =
      .ok "a.enc.db.enc" ∧
    (decrypt_file fernetId
      (encrypt_file fernetId (FS.write FS.empty "a.enc.db" [7]) "a.enc.db").2
      "a.enc.db.enc").1 = .ok "a.db" ∧
    "a.db" ≠ "a.enc.db" ∧
    ((decrypt_file fernetId
      (encrypt_file fernetId (FS.write FS.empty "a.enc.db" [7]) "a.enc.db").2
      "a.enc.db.enc").2).read "a.enc.db" = none := by
  refine ⟨rfl, rfl, by decide, rfl⟩

/-- C2 amended: for every readable file and every valid key whose Fernet
round trip is faithful, `decrypt_file` after `encrypt_file` reproduces the
original content byte-for-byte at the path
`enc_path.replace(".enc", "")`; this equals the original path exactly when
the original path does not itself contain `".enc"` as a substring. -/
theorem c2_amended (f : FernetScheme) (fs : FS) (p : String) (d : List Nat)
    (hk : f.keyOk = true) (hrt : ∀ x, f.dec (f.enc x) = some x)
    (hr : fs.read p = some d) (hp : strContainsEnc p = false) :
    (encrypt_file f fs p).1 = .ok (p ++ ".enc") ∧
    (decrypt_file f (encrypt_file f fs p).2 (p ++ ".enc")).1 = .ok p ∧
    ((decrypt_file f (encrypt_file f fs p).2 (p ++ ".enc")).2).read p = some d := by
  have hne : p ++ ".enc" ≠ p := (ne_append_of_pos p ".enc" (by decide)).symm
  have henc : encrypt_file f fs p =
      (.ok (p ++ ".enc"), (fs.write (p ++ ".enc") (f.enc d)).remove p) := by
    simp [encrypt_file, hk, hr]
  have hread1 : ((fs.write (p ++ ".enc") (f.enc d)).remove p).read (p ++ ".enc") =
      some (f.enc d) := by
    rw [FS.read_remove_ne _ _ _ hne, FS.read_write_self]
  have hout : pyReplaceEnc (p ++ ".enc") = p := pyReplaceEnc_append_enc p hp
  have hdec : decrypt_file f ((fs.write (p ++ ".enc") (f.enc d)).remove p) (p ++ ".enc") =
      (.ok p, ((fs.write (p ++ ".enc") (f.enc d)).remove p).write p d) := by
    simp [decrypt_file, hk, hread1, hrt, hout]
  refine ⟨by rw [henc], by rw [henc, hdec], by rw [henc, hdec]; exact FS.read_write_self _ _ _⟩

/-- C2 witness: the amended round trip at a concrete file `a` whose path
contains no `".enc"`. -/
theorem c2_witness :
    fernetId.keyOk = true ∧
    (FS.write FS.empty "a" [1, 2]).read "a" = some [1, 2] ∧
    strContainsEnc "a" = false ∧
    (encrypt_file fernetId (FS.write FS.empty "a" [1, 2]) "a").1 = .ok ("a" ++ ".enc") ∧
    (decrypt_file fernetId
      (encrypt_file fernetId (FS.write FS.empty "a" [1, 2]) "a").2 ("a" ++ ".enc")).1 = .ok "a" ∧
    ((decrypt_file fernetId
      (encrypt_file fernetId (FS.write FS.empty "a" [1, 2]) "a").2 ("a" ++ ".enc")).2).read "a" =
      some [1, 2] := by
  have h := c2_amended fernetId (FS.write FS.empty "a" [1, 2]) "a" [1, 2]
    rfl (fun x => rfl) rfl rfl
  exact ⟨rfl, rfl, rfl, h.1, h.2.1, h.2.2⟩

end DBVault
